import Mathlib

/-!
Verification development for the KIOT entity/registration core
(`src/entities/entity.cpp`, `src/entities/switch.cpp`,
`src/entities/sensor.cpp`): a shallow embedding of the topic naming,
discovery-document construction, attribute codec and the Switch/Sensor
variants, with theorems about the MQTT publishes each operation performs.
-/

/-- JSON values as produced by QJsonValue/QJsonObject/QJsonArray. -/
inductive JVal where
  | jNull : JVal
  | jBool : Bool → JVal
  | jNum : Int → JVal
  | jStr : String → JVal
  | jArr : List JVal → JVal
  | jObj : List (String × JVal) → JVal
deriving Repr

/-- QVariant values as used by the entity core: booleans, strings, integers,
date-times (kept as their ISO-8601 rendering), lists, maps, opaque
user/custom-typed values, and already-JSON values. -/
inductive Variant where
  | vBool : Bool → Variant
  | vString : String → Variant
  | vInt : Int → Variant
  | vDateTime : String → Variant
  | vList : List Variant → Variant
  | vMap : List (String × Variant) → Variant
  | vUser : Nat → Variant
  | vJson : JVal → Variant
deriving Repr

/-- A QVariantMap (QMap keeps its entries sorted by key). -/
abbrev VariantMap := List (String × Variant)

/-- QString::operator< — lexicographic comparison, as a Boolean. -/
def strLt (a b : String) : Bool :=
  @decide (@LT.lt String String.instLT a b) (String.decLt a b)

/-- Sorted insertion, the behaviour of `map[key] = value` on a QMap:
overwrites an existing key, otherwise inserts in key order. -/
def mapInsert (k : String) (v : Variant) : VariantMap → VariantMap
  | [] => [(k, v)]
  | (k', v') :: rest =>
    if strLt k k' then (k, v) :: (k', v') :: rest
    else if k = k' then (k, v) :: rest
    else (k', v') :: mapInsert k v rest

/-- Key lookup in a QVariantMap. -/
def mapLookup (k : String) : VariantMap → Option Variant
  | [] => none
  | (k', v') :: rest => if k = k' then some v' else mapLookup k rest

/-- Key lookup in a JSON object member list. -/
def docLookup (k : String) : List (String × JVal) → Option JVal
  | [] => none
  | (k', v') :: rest => if k = k' then some v' else docLookup k rest

mutual
/-- QJsonValue::fromVariant: the generic value-to-JSON fallback used both by
QJsonObject::fromVariantMap and inside the attribute codec. -/
def jsonValueFromVariant : Variant → JVal
  | .vBool b => .jBool b
  | .vString s => .jStr s
  | .vInt n => .jNum n
  | .vDateTime iso => .jStr iso
  | .vList xs => .jArr (jsonValueFromVariantSeq xs)
  | .vMap m => .jObj (jsonValueFromVariantEntries m)
  | .vUser _ => .jNull
  | .vJson j => j

/-- QJsonValue::fromVariant mapped over a list of variants. -/
def jsonValueFromVariantSeq : List Variant → List JVal
  | [] => []
  | x :: xs => jsonValueFromVariant x :: jsonValueFromVariantSeq xs

/-- QJsonValue::fromVariant mapped over the entries of a variant map. -/
def jsonValueFromVariantEntries : List (String × Variant) → List (String × JVal)
  | [] => []
  | (k, v) :: xs => (k, jsonValueFromVariant v) :: jsonValueFromVariantEntries xs
end

/-- Escaping of one character inside a JSON string literal. -/
def jsonEscapeChar (c : Char) : String :=
  if c = '"' then "\\\""
  else if c = '\\' then "\\\\"
  else if c = '\n' then "\\n"
  else if c = '\r' then "\\r"
  else if c = '\t' then "\\t"
  else String.singleton c

/-- Escaping of a JSON string literal's content. -/
def jsonEscape (s : String) : String :=
  String.join (s.data.map jsonEscapeChar)

mutual
/-- QJsonDocument::toJson(QJsonDocument::Compact): the compact byte
rendering of a JSON value. -/
def jsonCompact : JVal → String
  | .jNull => "null"
  | .jBool b => if b then "true" else "false"
  | .jNum n => toString n
  | .jStr s => "\"" ++ jsonEscape s ++ "\""
  | .jArr xs => "[" ++ jsonCompactSeq xs ++ "]"
  | .jObj kvs => "\x7b" ++ jsonCompactEntries kvs ++ "\x7d"

/-- Compact rendering of the comma-separated elements of a JSON array. -/
def jsonCompactSeq : List JVal → String
  | [] => ""
  | [x] => jsonCompact x
  | x :: y :: xs => jsonCompact x ++ "," ++ jsonCompactSeq (y :: xs)

/-- Compact rendering of the comma-separated members of a JSON object. -/
def jsonCompactEntries : List (String × JVal) → String
  | [] => ""
  | [(k, v)] => "\"" ++ jsonEscape k ++ "\":" ++ jsonCompact v
  | (k, v) :: y :: xs =>
    "\"" ++ jsonEscape k ++ "\":" ++ jsonCompact v ++ "," ++ jsonCompactEntries (y :: xs)
end

/-- One MQTT publish call: publish(topic, payload, qos, retain). -/
structure Publish where
  topic : String
  payload : String
  qos : Nat
  retain : Bool
deriving Repr, DecidableEq

/-- The process environment the entity core reads: the OS host name
(QHostInfo::localHostName()) and whether the MQTT client currently
reports QMqttClient::Connected. -/
structure Env where
  localHostName : String
  connected : Bool

/-- QString::toLower(): per-character lower-casing of the host name. -/
def qtToLower (s : String) : String :=
  String.mk (s.data.map Char.toLower)

/-- Entity::hostname(): the OS host name, lower-cased at read time. -/
def hostnameOf (env : Env) : String :=
  qtToLower env.localHostName

/-- The member fields of the Entity base class. -/
structure EntityState where
  m_id : String
  m_name : String
  m_haType : String
  m_haIcon : String
  m_haConfig : VariantMap
  m_attributes : VariantMap

/-- Entity::baseTopic(): hostname() + "/" + id(). -/
def baseTopic (env : Env) (e : EntityState) : String :=
  hostnameOf env ++ "/" ++ e.m_id

/-- Entity::setDiscoveryConfig(key, value): mutates the overlay map. -/
def setDiscoveryConfig (k : String) (v : Variant) (e : EntityState) : EntityState :=
  { e with m_haConfig := mapInsert k v e.m_haConfig }

/-- The discovery document map built by Entity::sendRegistration(): the
overlay copy with name, the availability fields (unless the reserved id
"connected"), json_attributes_topic, a default device descriptor when the
overlay has none, and unique_id. -/
def registrationConfig (env : Env) (e : EntityState) : VariantMap :=
  let config := mapInsert "name" (.vString e.m_name) e.m_haConfig
  let config :=
    if e.m_id ≠ "connected" then
      let c := mapInsert "availability_topic" (.vString (hostnameOf env ++ "/connected")) config
      let c := mapInsert "payload_available" (.vString "on") c
      let c := mapInsert "payload_not_available" (.vString "off") c
      if e.m_haIcon ≠ "" then mapInsert "icon" (.vString e.m_haIcon) c else c
    else config
  let config := mapInsert "json_attributes_topic" (.vString (baseTopic env e ++ "/attributes")) config
  let config :=
    if (mapLookup "device" config).isNone then
      mapInsert "device" (.vMap [("identifiers", .vString ("linux_ha_bridge_" ++ hostnameOf env))]) config
    else config
  mapInsert "unique_id" (.vString ("linux_ha_control_" ++ hostnameOf env ++ "_" ++ e.m_id)) config

/-- QJsonObject::fromVariantMap applied to the discovery document map. -/
def registrationDoc (env : Env) (e : EntityState) : List (String × JVal) :=
  jsonValueFromVariantEntries (registrationConfig env e)

/-- The discovery topic s_discoveryPrefix + "/" + haType + "/" + hostname
+ "/" + id + "/config" (the prefix constant is "homeassistant"). -/
def discoveryTopic (env : Env) (e : EntityState) : String :=
  "homeassistant" ++ "/" ++ e.m_haType ++ "/" ++ hostnameOf env ++ "/" ++ e.m_id ++ "/config"

/-- Entity::sendRegistration(): no-op when haType is empty; otherwise
publishes the compact discovery document retained at QoS 0, and, unless the
reserved id "connected", additionally publishes "on" to the availability
topic non-retained at QoS 0. The member fields are not mutated (the
document is built on a local copy of the overlay). -/
def sendRegistration (env : Env) (e : EntityState) : EntityState × List Publish :=
  if e.m_haType = "" then (e, [])
  else
    (e,
      ⟨discoveryTopic env e, jsonCompact (.jObj (registrationDoc env e)), 0, true⟩ ::
      (if e.m_id ≠ "connected" then [⟨hostnameOf env ++ "/connected", "on", 0, false⟩] else []))

/-- Entity::setHaIcon(icon): stores the icon, then sends the registration. -/
def setHaIcon (env : Env) (icon : String) (e : EntityState) : EntityState × List Publish :=
  sendRegistration env { e with m_haIcon := icon }

/-- Entity::convertForHomeAssistant(value): the attribute codec. Booleans
become the literal strings "true"/"false", date-times their ISO rendering,
lists a JSON array and maps a JSON object (via the generic fallback);
everything else, user/custom types included, passes through unchanged. -/
def convertForHomeAssistant : Variant → Variant
  | .vBool b => .vString (if b then "true" else "false")
  | .vDateTime iso => .vString iso
  | .vList xs => .vJson (.jArr (jsonValueFromVariantSeq xs))
  | .vMap m => .vJson (.jObj (jsonValueFromVariantEntries m))
  | v => v

/-- Whether a variant kind has a dedicated case in the codec's switch
(Bool, DateTime, List, Map); the other kinds fall to UserType/default. -/
def speciallyHandled : Variant → Bool
  | .vBool _ => true
  | .vDateTime _ => true
  | .vList _ => true
  | .vMap _ => true
  | _ => false

/-- The JSON object Entity::publishAttributes() builds: every stored
attribute value run through the codec and then the generic fallback. -/
def attributesDoc (attrs : VariantMap) : List (String × JVal) :=
  jsonValueFromVariantEntries (attrs.map fun kv => (kv.1, convertForHomeAssistant kv.2))

/-- Entity::publishAttributes(): guarded by the connected check — when the
client is not connected nothing is published; otherwise the compact
attributes document goes to baseTopic() + "/attributes", retained, QoS 0. -/
def publishAttributes (env : Env) (e : EntityState) : EntityState × List Publish :=
  if env.connected then
    (e, [⟨baseTopic env e ++ "/attributes", jsonCompact (.jObj (attributesDoc e.m_attributes)), 0, true⟩])
  else (e, [])

/-- Entity::setAttributes(attrs): replaces the stored attribute map
wholesale, then calls publishAttributes(). -/
def setAttributes (env : Env) (attrs : VariantMap) (e : EntityState) : EntityState × List Publish :=
  publishAttributes env { e with m_attributes := attrs }

/-- Entity::init(): the base-class handler run on every broker connection;
its body is empty. -/
def entityInit (e : EntityState) : EntityState × List Publish :=
  (e, [])

/-- The member fields of the Switch entity: the base fields plus m_state. -/
structure SwitchState where
  entity : EntityState
  m_state : Bool

/-- Switch::setState(state): stores the state and, when the client is
connected, publishes "true"/"false" to the base topic, retained, QoS 0. -/
def switchSetState (env : Env) (b : Bool) (s : SwitchState) : SwitchState × List Publish :=
  let s2 := { s with m_state := b }
  (s2,
    if env.connected then
      [⟨baseTopic env s2.entity, if b then "true" else "false", 0, true⟩]
    else [])

/-- Switch::init(): fills the discovery overlay (state_topic, command_topic,
payload_on, payload_off), sends the registration, republishes the current
state and subscribes to baseTopic() + "/set". -/
def switchInit (env : Env) (s : SwitchState) : SwitchState × List Publish :=
  let e := setDiscoveryConfig "state_topic" (.vString (baseTopic env s.entity)) s.entity
  let e := setDiscoveryConfig "command_topic" (.vString (baseTopic env s.entity ++ "/set")) e
  let e := setDiscoveryConfig "payload_on" (.vString "true") e
  let e := setDiscoveryConfig "payload_off" (.vString "false") e
  let reg := sendRegistration env e
  let st := switchSetState env s.m_state { s with entity := reg.1 }
  (st.1, reg.2 ++ st.2)

/-- The Qt signal a Switch can emit towards its owning integration. -/
inductive SwitchSignal where
  | stateChangeRequested : Bool → SwitchSignal
deriving Repr, DecidableEq

/-- The messageReceived handler Switch::init() connects on the command
subscription: payload "true" emits stateChangeRequested(true), "false"
emits stateChangeRequested(false), anything else is logged as an unknown
state request and dropped. It performs no publish and no mutation. -/
def switchMessageReceived (s : SwitchState) (payload : String) :
    SwitchState × List Publish × List SwitchSignal :=
  if payload = "true" then (s, [], [.stateChangeRequested true])
  else if payload = "false" then (s, [], [.stateChangeRequested false])
  else (s, [], [])

/-- The member fields of the Sensor entity: the base fields plus m_state. -/
structure SensorState where
  entity : EntityState
  m_state : String

/-- Sensor::publishState(): when connected, publishes the state string to
the base topic, retained, QoS 0. -/
def sensorPublishState (env : Env) (s : SensorState) : List Publish :=
  if env.connected then [⟨baseTopic env s.entity, s.m_state, 0, true⟩] else []

/-- Sensor::init(): sets haType to "sensor", fills state_topic in the
overlay, sends the registration, publishes the state and the attributes. -/
def sensorInit (env : Env) (s : SensorState) : SensorState × List Publish :=
  let e := { s.entity with m_haType := "sensor" }
  let e := setDiscoveryConfig "state_topic" (.vString (baseTopic env e)) e
  let reg := sendRegistration env e
  let s2 := { s with entity := reg.1 }
  (s2, reg.2 ++ sensorPublishState env s2 ++ (publishAttributes env s2.entity).2)

theorem mapLookup_insert_self (k : String) (v : Variant) (m : VariantMap) :
    mapLookup k (mapInsert k v m) = some v := by
  induction m with
  | nil => simp [mapInsert, mapLookup]
  | cons kv rest ih =>
    obtain ⟨k', v'⟩ := kv
    by_cases h1 : strLt k k' = true
    · simp [mapInsert, mapLookup, h1]
    · by_cases h2 : k = k'
      · subst h2
        simp [mapInsert, mapLookup, h1]
      · simp [mapInsert, mapLookup, h1, h2, ih]

theorem mapLookup_insert_ne (k k2 : String) (h : k ≠ k2) (v : Variant) (m : VariantMap) :
    mapLookup k (mapInsert k2 v m) = mapLookup k m := by
  induction m with
  | nil => simp [mapInsert, mapLookup, h]
  | cons kv rest ih =>
    obtain ⟨k', v'⟩ := kv
    by_cases h1 : strLt k2 k' = true
    · simp [mapInsert, mapLookup, h1, h]
    · by_cases h2 : k2 = k'
      · subst h2
        simp [mapInsert, mapLookup, h1, h]
      · simp [mapInsert, mapLookup, h1, h2, ih]

theorem docLookup_entries (k : String) (m : VariantMap) :
    docLookup k (jsonValueFromVariantEntries m) =
      (mapLookup k m).map jsonValueFromVariant := by
  induction m with
  | nil => simp [jsonValueFromVariantEntries, docLookup, mapLookup]
  | cons kv rest ih =>
    obtain ⟨k', v'⟩ := kv
    by_cases h : k = k'
    · simp [jsonValueFromVariantEntries, docLookup, mapLookup, h]
    · simp [jsonValueFromVariantEntries, docLookup, mapLookup, h, ih]

theorem sendRegistration_fst (env : Env) (e : EntityState) :
    (sendRegistration env e).1 = e := by
  unfold sendRegistration
  split <;> rfl

theorem setAttributes_fst (env : Env) (attrs : VariantMap) (e : EntityState) :
    (setAttributes env attrs e).1 = { e with m_attributes := attrs } := by
  unfold setAttributes publishAttributes
  split <;> rfl

theorem registrationConfig_unique_id (env : Env) (e : EntityState) :
    mapLookup "unique_id" (registrationConfig env e) =
      some (.vString ("linux_ha_control_" ++ hostnameOf env ++ "_" ++ e.m_id)) := by
  simp only [registrationConfig]
  exact mapLookup_insert_self _ _ _

theorem registrationConfig_lookup_reserved (env : Env) (e : EntityState)
    (hc : e.m_id = "connected") (k : String) (hk1 : k ≠ "unique_id") (hk2 : k ≠ "device")
    (hk3 : k ≠ "json_attributes_topic") (hk4 : k ≠ "name") :
    mapLookup k (registrationConfig env e) = mapLookup k e.m_haConfig := by
  simp only [registrationConfig, hc, ne_eq, not_true_eq_false, if_false, ite_false]
  rw [mapLookup_insert_ne _ _ hk1]
  split
  · rw [mapLookup_insert_ne _ _ hk2, mapLookup_insert_ne _ _ hk3,
      mapLookup_insert_ne _ _ hk4]
  · rw [mapLookup_insert_ne _ _ hk3, mapLookup_insert_ne _ _ hk4]

theorem registrationConfig_lookup_unreserved (env : Env) (e : EntityState)
    (hc : e.m_id ≠ "connected") (k : String) (h1 : k ≠ "unique_id") (h2 : k ≠ "device")
    (h3 : k ≠ "json_attributes_topic") (h4 : k ≠ "icon") :
    mapLookup k (registrationConfig env e) =
      mapLookup k (mapInsert "payload_not_available" (.vString "off")
        (mapInsert "payload_available" (.vString "on")
          (mapInsert "availability_topic" (.vString (hostnameOf env ++ "/connected"))
            (mapInsert "name" (.vString e.m_name) e.m_haConfig)))) := by
  simp only [registrationConfig, hc, ne_eq, not_false_eq_true, if_true, ite_true]
  rw [mapLookup_insert_ne _ _ h1]
  split
  · split
    · rw [mapLookup_insert_ne _ _ h2, mapLookup_insert_ne _ _ h3, mapLookup_insert_ne _ _ h4]
    · rw [mapLookup_insert_ne _ _ h3, mapLookup_insert_ne _ _ h4]
  · split
    · rw [mapLookup_insert_ne _ _ h2, mapLookup_insert_ne _ _ h3]
    · rw [mapLookup_insert_ne _ _ h3]

theorem registrationConfig_availability (env : Env) (e : EntityState)
    (hc : e.m_id ≠ "connected") :
    mapLookup "availability_topic" (registrationConfig env e) =
      some (.vString (hostnameOf env ++ "/connected"))
    ∧ mapLookup "payload_available" (registrationConfig env e) = some (.vString "on")
    ∧ mapLookup "payload_not_available" (registrationConfig env e) = some (.vString "off") := by
  refine ⟨?_, ?_, ?_⟩ <;>
    rw [registrationConfig_lookup_unreserved env e hc _ (by decide) (by decide) (by decide)
      (by decide)]
  · rw [mapLookup_insert_ne _ _ (by decide), mapLookup_insert_ne _ _ (by decide)]
    exact mapLookup_insert_self _ _ _
  · rw [mapLookup_insert_ne _ _ (by decide)]
    exact mapLookup_insert_self _ _ _
  · exact mapLookup_insert_self _ _ _

/-- A concrete environment: host "Desktop1", client connected. -/
def cEnv : Env := ⟨"Desktop1", true⟩

/-- A concrete environment: host "Desktop1", client disconnected. -/
def cEnvOff : Env := ⟨"Desktop1", false⟩

/-- The scenario entity: id "inhibit", haType "switch", no icon, empty
overlay. -/
def cInhibit : EntityState := ⟨"inhibit", "Inhibit", "switch", "", [], []⟩

/-- The scenario Switch entity wrapping cInhibit. -/
def cSwitch : SwitchState := ⟨cInhibit, false⟩

/-- A concrete entity with the reserved availability id "connected" and an
icon set. -/
def cConnEnt : EntityState := ⟨"connected", "Connected", "binary_sensor", "mdi:lan-connect", [], []⟩

/-- A concrete attribute map. -/
def cAttrs : VariantMap := [("cpu", .vInt 42), ("ok", .vBool true)]

/-- C3: for every entity state, running sendRegistration a second time on
the state left by a first run publishes exactly the same list of messages
(same discovery topic, byte-identical payloads): registration is
idempotent and deterministic. -/
theorem c3_sendRegistration_idempotent (env : Env) (e : EntityState) :
    sendRegistration env ((sendRegistration env e).1) = sendRegistration env e := by
  rw [sendRegistration_fst]

/-- C5: the attribute codec maps a boolean to the literal string
"true"/"false" (a string value, never a JSON boolean), and every variant
kind without a dedicated case in its switch — numbers, strings,
already-JSON values, unknown/custom types — is returned unchanged; the
codec is a total function. -/
theorem c5_codec_bool_and_passthrough :
    (∀ b : Bool, convertForHomeAssistant (.vBool b) = .vString (if b then "true" else "false"))
    ∧ ∀ v : Variant, speciallyHandled v = false → convertForHomeAssistant v = v := by
  constructor
  · intro b
    cases b <;> rfl
  · intro v hv
    cases v <;> simp_all [speciallyHandled, convertForHomeAssistant]

/-- C5 witness: the codec at concrete inputs — a boolean and an untouched
integer. -/
theorem c5_codec_witness :
    convertForHomeAssistant (.vBool true) = .vString "true"
    ∧ convertForHomeAssistant (.vInt 7) = .vInt 7 :=
  ⟨c5_codec_bool_and_passthrough.1 true, c5_codec_bool_and_passthrough.2 (.vInt 7) rfl⟩

/-- C6: the Switch command handler emits exactly one stateChangeRequested
signal carrying true for payload "true", exactly one carrying false for
payload "false", and no signal at all for any other payload. -/
theorem c6_switch_command_decoding (s : SwitchState) (payload : String)
    (h1 : payload ≠ "true") (h2 : payload ≠ "false") :
    (switchMessageReceived s "true").2.2 = [.stateChangeRequested true]
    ∧ (switchMessageReceived s "false").2.2 = [.stateChangeRequested false]
    ∧ (switchMessageReceived s payload).2.2 = [] := by
  refine ⟨rfl, rfl, ?_⟩
  simp [switchMessageReceived, h1, h2]

/-- C6 witness: the handler at the concrete unrecognized payload "maybe". -/
theorem c6_switch_command_witness :
    (switchMessageReceived cSwitch "true").2.2 = [.stateChangeRequested true]
    ∧ (switchMessageReceived cSwitch "false").2.2 = [.stateChangeRequested false]
    ∧ (switchMessageReceived cSwitch "maybe").2.2 = [] :=
  c6_switch_command_decoding cSwitch "maybe" (by decide) (by decide)

/-- C7: when haType is the empty string, sendRegistration publishes
nothing and leaves the entity state unchanged. -/
theorem c7_empty_haType_noop (env : Env) (e : EntityState) (h : e.m_haType = "") :
    sendRegistration env e = (e, []) := by
  simp [sendRegistration, h]

/-- C7 witness: an unconfigured concrete entity registers nothing. -/
theorem c7_empty_haType_witness :
    sendRegistration cEnv ⟨"inhibit", "Inhibit", "", "", [], []⟩ =
      (⟨"inhibit", "Inhibit", "", "", [], []⟩, []) :=
  c7_empty_haType_noop cEnv ⟨"inhibit", "Inhibit", "", "", [], []⟩ rfl

/-- C8: handling an inbound command message never mutates the Switch's
stored state (m_state and every other field are unchanged) and performs no
publish; its only output is the signal list. -/
theorem c8_command_handler_frame (s : SwitchState) (payload : String) :
    (switchMessageReceived s payload).1 = s
    ∧ (switchMessageReceived s payload).2.1 = [] := by
  unfold switchMessageReceived
  split
  · exact ⟨rfl, rfl⟩
  · split
    · exact ⟨rfl, rfl⟩
    · exact ⟨rfl, rfl⟩

/-- C9: setHaIcon stores the icon and then immediately performs a full
sendRegistration on the updated state: its publishes are exactly the
registration's publishes. -/
theorem c9_setHaIcon_reregisters (env : Env) (icon : String) (e : EntityState) :
    (setHaIcon env icon e).1.m_haIcon = icon
    ∧ setHaIcon env icon e = sendRegistration env { e with m_haIcon := icon } := by
  constructor
  · show (sendRegistration env { e with m_haIcon := icon }).1.m_haIcon = icon
    rw [sendRegistration_fst]
  · rfl

/-- C4: setAttributes while the transport reports disconnected performs
zero publish calls; the broker-connection event itself runs the base
Entity::init(), which publishes nothing — attribute publication is
need-triggered, only an explicit setAttributes call while connected
publishes (and then exactly the one attribute publish). -/
theorem c4_attributes_need_triggered (envOff envOn : Env) (attrs : VariantMap)
    (e : EntityState) (hOff : envOff.connected = false) (hOn : envOn.connected = true) :
    (setAttributes envOff attrs e).2 = []
    ∧ (entityInit e).2 = []
    ∧ (setAttributes envOn attrs e).2 =
        [⟨baseTopic envOn e ++ "/attributes", jsonCompact (.jObj (attributesDoc attrs)), 0, true⟩] := by
  refine ⟨?_, rfl, ?_⟩
  · simp [setAttributes, publishAttributes, hOff]
  · simp [setAttributes, publishAttributes, hOn, baseTopic, attributesDoc]

/-- C4 witness: the scenario entity with a concrete attribute map, against
a disconnected and a connected environment. -/
theorem c4_attributes_need_triggered_witness :
    (setAttributes cEnvOff cAttrs cInhibit).2 = []
    ∧ (entityInit cInhibit).2 = []
    ∧ (setAttributes cEnv cAttrs cInhibit).2 =
        [⟨baseTopic cEnv cInhibit ++ "/attributes", jsonCompact (.jObj (attributesDoc cAttrs)), 0, true⟩] :=
  c4_attributes_need_triggered cEnvOff cEnv cAttrs cInhibit rfl rfl

/-- C10: setAttributes replaces the stored attribute map even when the
transport is disconnected (only the publish is skipped), so a later
publishAttributes — directly, or as the last publish of Sensor::init()
after reconnect — publishes exactly the most recently set map. -/
theorem c10_attributes_survive_disconnect (envA envB : Env) (attrs : VariantMap)
    (e : EntityState) (st : String) (hB : envB.connected = true) :
    ((setAttributes envA attrs e).1).m_attributes = attrs
    ∧ (publishAttributes envB (setAttributes envA attrs e).1).2 =
        [⟨baseTopic envB e ++ "/attributes", jsonCompact (.jObj (attributesDoc attrs)), 0, true⟩]
    ∧ (sensorInit envB ⟨(setAttributes envA attrs e).1, st⟩).2.getLast? =
        some ⟨baseTopic envB e ++ "/attributes", jsonCompact (.jObj (attributesDoc attrs)), 0, true⟩ := by
  rw [setAttributes_fst]
  refine ⟨rfl, ?_, ?_⟩
  · simp [publishAttributes, hB, baseTopic, attributesDoc]
  · simp [sensorInit, publishAttributes, hB, setDiscoveryConfig, sendRegistration_fst,
      baseTopic, attributesDoc, List.getLast?_concat]

/-- C10 witness: a concrete attribute map set while disconnected is
published verbatim by a later publishAttributes and by Sensor::init(). -/
theorem c10_attributes_survive_disconnect_witness :
    ((setAttributes cEnvOff cAttrs cInhibit).1).m_attributes = cAttrs
    ∧ (publishAttributes cEnv (setAttributes cEnvOff cAttrs cInhibit).1).2 =
        [⟨baseTopic cEnv cInhibit ++ "/attributes", jsonCompact (.jObj (attributesDoc cAttrs)), 0, true⟩]
    ∧ (sensorInit cEnv ⟨(setAttributes cEnvOff cAttrs cInhibit).1, "idle"⟩).2.getLast? =
        some ⟨baseTopic cEnv cInhibit ++ "/attributes", jsonCompact (.jObj (attributesDoc cAttrs)), 0, true⟩ :=
  c10_attributes_survive_disconnect cEnvOff cEnv cAttrs cInhibit "idle" rfl

/-- C1: on a host whose lower-cased hostname is "desktop1", for an entity
with id "inhibit" and haType "switch": Switch::init() sets the overlay's
state_topic to "desktop1/inhibit" and command_topic to
"desktop1/inhibit/set", and sendRegistration() publishes the discovery
document to "homeassistant/switch/desktop1/inhibit/config" with unique_id
"linux_ha_control_desktop1_inhibit". -/
theorem c1_switch_scenario (env : Env) (s : SwitchState)
    (hHost : hostnameOf env = "desktop1") (hId : s.entity.m_id = "inhibit")
    (hType : s.entity.m_haType = "switch") :
    mapLookup "state_topic" ((switchInit env s).1.entity.m_haConfig) =
      some (.vString "desktop1/inhibit")
    ∧ mapLookup "command_topic" ((switchInit env s).1.entity.m_haConfig) =
      some (.vString "desktop1/inhibit/set")
    ∧ (sendRegistration env s.entity).2.head? =
        some ⟨"homeassistant/switch/desktop1/inhibit/config",
          jsonCompact (.jObj (registrationDoc env s.entity)), 0, true⟩
    ∧ docLookup "unique_id" (registrationDoc env s.entity) =
        some (.jStr "linux_ha_control_desktop1_inhibit") := by
  have hbase : baseTopic env s.entity = "desktop1/inhibit" := by
    simp only [baseTopic, hHost, hId]
    rfl
  have hcfg : (switchInit env s).1.entity.m_haConfig =
      mapInsert "payload_off" (.vString "false")
        (mapInsert "payload_on" (.vString "true")
          (mapInsert "command_topic" (.vString (baseTopic env s.entity ++ "/set"))
            (mapInsert "state_topic" (.vString (baseTopic env s.entity)) s.entity.m_haConfig))) := by
    simp [switchInit, switchSetState, setDiscoveryConfig, sendRegistration_fst]
  refine ⟨?_, ?_, ?_, ?_⟩
  · rw [hcfg, hbase, mapLookup_insert_ne _ _ (by decide), mapLookup_insert_ne _ _ (by decide),
      mapLookup_insert_ne _ _ (by decide)]
    exact mapLookup_insert_self _ _ _
  · rw [hcfg, hbase, mapLookup_insert_ne _ _ (by decide), mapLookup_insert_ne _ _ (by decide)]
    exact mapLookup_insert_self _ _ _
  · simp [sendRegistration, hType, discoveryTopic, hHost, hId]
  · simp only [registrationDoc, docLookup_entries, registrationConfig_unique_id, hHost, hId]
    rfl

/-- C1 witness: the scenario at the concrete host "Desktop1" and the
concrete switch entity. -/
theorem c1_switch_scenario_witness :
    mapLookup "state_topic" ((switchInit cEnv cSwitch).1.entity.m_haConfig) =
      some (.vString "desktop1/inhibit")
    ∧ mapLookup "command_topic" ((switchInit cEnv cSwitch).1.entity.m_haConfig) =
      some (.vString "desktop1/inhibit/set")
    ∧ (sendRegistration cEnv cSwitch.entity).2.head? =
        some ⟨"homeassistant/switch/desktop1/inhibit/config",
          jsonCompact (.jObj (registrationDoc cEnv cSwitch.entity)), 0, true⟩
    ∧ docLookup "unique_id" (registrationDoc cEnv cSwitch.entity) =
        some (.jStr "linux_ha_control_desktop1_inhibit") :=
  c1_switch_scenario cEnv cSwitch (by decide) rfl rfl

/-- C2: a registering entity with the reserved id "connected" gets no
availability_topic, payload_available, payload_not_available or icon field
added to its discovery document (those keys read exactly as in the raw
overlay) and its registration performs only the one discovery publish — no
availability ping; an entity with any other id gets the three availability
fields and its registration also publishes "on" to the availability topic
non-retained at QoS 0. -/
theorem c2_reserved_availability (env : Env) (e : EntityState) (hT : e.m_haType ≠ "") :
    (e.m_id = "connected" →
      mapLookup "availability_topic" (registrationConfig env e) =
        mapLookup "availability_topic" e.m_haConfig
      ∧ mapLookup "payload_available" (registrationConfig env e) =
        mapLookup "payload_available" e.m_haConfig
      ∧ mapLookup "payload_not_available" (registrationConfig env e) =
        mapLookup "payload_not_available" e.m_haConfig
      ∧ mapLookup "icon" (registrationConfig env e) = mapLookup "icon" e.m_haConfig
      ∧ (sendRegistration env e).2 =
          [⟨discoveryTopic env e, jsonCompact (.jObj (registrationDoc env e)), 0, true⟩])
    ∧ (e.m_id ≠ "connected" →
      mapLookup "availability_topic" (registrationConfig env e) =
        some (.vString (hostnameOf env ++ "/connected"))
      ∧ mapLookup "payload_available" (registrationConfig env e) = some (.vString "on")
      ∧ mapLookup "payload_not_available" (registrationConfig env e) = some (.vString "off")
      ∧ Publish.mk (hostnameOf env ++ "/connected") "on" 0 false ∈ (sendRegistration env e).2) := by
  constructor
  · intro hc
    refine ⟨?_, ?_, ?_, ?_, ?_⟩
    · exact registrationConfig_lookup_reserved env e hc _ (by decide) (by decide) (by decide)
        (by decide)
    · exact registrationConfig_lookup_reserved env e hc _ (by decide) (by decide) (by decide)
        (by decide)
    · exact registrationConfig_lookup_reserved env e hc _ (by decide) (by decide) (by decide)
        (by decide)
    · exact registrationConfig_lookup_reserved env e hc _ (by decide) (by decide) (by decide)
        (by decide)
    · simp [sendRegistration, hT, hc]
  · intro hc
    obtain ⟨h1, h2, h3⟩ := registrationConfig_availability env e hc
    refine ⟨h1, h2, h3, ?_⟩
    simp [sendRegistration, hT, hc]

/-- C2 witness: the reserved-id entity (with an icon set) gains none of the
fields and pings nothing; the scenario switch entity's registration does
publish the availability ping. -/
theorem c2_reserved_availability_witness :
    mapLookup "availability_topic" (registrationConfig cEnv cConnEnt) = none
    ∧ mapLookup "icon" (registrationConfig cEnv cConnEnt) = none
    ∧ Publish.mk (hostnameOf cEnv ++ "/connected") "on" 0 false ∈
        (sendRegistration cEnv cInhibit).2 :=
  ⟨((c2_reserved_availability cEnv cConnEnt (by decide)).1 rfl).1.trans rfl,
   ((c2_reserved_availability cEnv cConnEnt (by decide)).1 rfl).2.2.2.1.trans rfl,
   ((c2_reserved_availability cEnv cInhibit (by decide)).2 (by decide)).2.2.2⟩
